import Mathlib

/-!
Shallow embedding of the prompt-templating engine and the Straico provider
adapter of this repository (src/client/prompt_format.rs and
src/client/straico.rs), together with theorems settling the spec claims.
-/

set_option maxRecDepth 4000

namespace Aichat

/-- Role of a chat message (the `MessageRole` enum used by the renderer). -/
inductive MessageRole
  | system
  | user
  | assistant
deriving DecidableEq

/-- An image reference: `ImageUrl { url }`. -/
structure ImageUrl where
  url : String
deriving DecidableEq

/-- One part of a multi-part message content: `MessageContentPart`. -/
inductive MessageContentPart
  | text (text : String)
  | imageUrl (image_url : ImageUrl)
deriving DecidableEq

/-- Message content: plain text, a part list, or tool results (whose payload
the renderer ignores; modelled as an opaque `Nat` tag). -/
inductive MessageContent
  | text (t : String)
  | array (list : List MessageContentPart)
  | toolResults (payload : Nat)
deriving DecidableEq

/-- A chat message: role plus content. -/
structure Message where
  role : MessageRole
  content : MessageContent
deriving DecidableEq

/-- The eight-delimiter prompt format record (`PromptFormat`). `end` is a
Lean keyword, hence the field name `end_`. -/
structure PromptFormat where
  begin_ : String
  system_pre_message : String
  system_post_message : String
  user_pre_message : String
  user_post_message : String
  assistant_pre_message : String
  assistant_post_message : String
  end_ : String
deriving DecidableEq

def GENERIC_PROMPT_FORMAT : PromptFormat :=
  { begin_ := ""
  , system_pre_message := ""
  , system_post_message := "\n"
  , user_pre_message := "### Instruction:\n"
  , user_post_message := "\n"
  , assistant_pre_message := "### Response:\n"
  , assistant_post_message := "\n"
  , end_ := "### Response:\n" }

def ANTHROPIC_PROMPT_FORMAT : PromptFormat :=
  { begin_ := ""
  , system_pre_message := ""
  , system_post_message := "\n"
  , user_pre_message := "\nHuman: "
  , user_post_message := "\n"
  , assistant_pre_message := "\nAssistant: "
  , assistant_post_message := "\n"
  , end_ := "\nAssistant:" }

def MISTRAL_PROMPT_FORMAT : PromptFormat :=
  { begin_ := ""
  , system_pre_message := "[INST] <<SYS>>"
  , system_post_message := "<</SYS>> [/INST]"
  , user_pre_message := "[INST]"
  , user_post_message := "[/INST]"
  , assistant_pre_message := ""
  , assistant_post_message := ""
  , end_ := "" }

def LLAMA3_PROMPT_FORMAT : PromptFormat :=
  { begin_ := "<|begin_of_text|>"
  , system_pre_message := "<|start_header_id|>system<|end_header_id|>\n\n"
  , system_post_message := "<|eot_id|>"
  , user_pre_message := "<|start_header_id|>user<|end_header_id|>\n\n"
  , user_post_message := "<|eot_id|>"
  , assistant_pre_message := "<|start_header_id|>assistant<|end_header_id|>\n\n"
  , assistant_post_message := "<|eot_id|>"
  , end_ := "<|start_header_id|>assistant<|end_header_id|>\n\n" }

def PHI3_PROMPT_FORMAT : PromptFormat :=
  { begin_ := ""
  , system_pre_message := "<|system|>\n"
  , system_post_message := "<|end|>\n"
  , user_pre_message := "<|user|>\n"
  , user_post_message := "<|end|>\n"
  , assistant_pre_message := "<|assistant|>\n"
  , assistant_post_message := "<|end|>\n"
  , end_ := "<|assistant|>\n" }

def COMMAND_R_PROMPT_FORMAT : PromptFormat :=
  { begin_ := ""
  , system_pre_message := "<|START_OF_TURN_TOKEN|><|SYSTEM_TOKEN|>"
  , system_post_message := "<|END_OF_TURN_TOKEN|>"
  , user_pre_message := "<|START_OF_TURN_TOKEN|><|USER_TOKEN|>"
  , user_post_message := "<|END_OF_TURN_TOKEN|>"
  , assistant_pre_message := "<|START_OF_TURN_TOKEN|><|CHATBOT_TOKEN|>"
  , assistant_post_message := "<|END_OF_TURN_TOKEN|>"
  , end_ := "<|START_OF_TURN_TOKEN|><|CHATBOT_TOKEN|>" }

def QWEN_PROMPT_FORMAT : PromptFormat :=
  { begin_ := ""
  , system_pre_message := "<|im_start|>system\n"
  , system_post_message := "<|im_end|>"
  , user_pre_message := "<|im_start|>user\n"
  , user_post_message := "<|im_end|>"
  , assistant_pre_message := "<|im_start|>assistant\n"
  , assistant_post_message := "<|im_end|>"
  , end_ := "<|im_start|>assistant\n" }

/-- Boolean test that the char list `p` is an initial segment of `l`. -/
def startsWithChars : List Char → List Char → Bool
  | [], _ => true
  | _ :: _, [] => false
  | p :: ps, c :: cs => p == c && startsWithChars ps cs

/-- Boolean substring containment on char lists (`p` occurs inside `l`). -/
def containsChars (p : List Char) : List Char → Bool
  | [] => startsWithChars p []
  | c :: cs => startsWithChars p (c :: cs) || containsChars p cs

/-- Rust `str::contains(pattern)`: substring containment, case sensitive. -/
def strContains (s pat : String) : Bool :=
  containsChars pat.toList s.toList

/-- The per-item loop of `generate_prompt`'s `Array` branch: text parts are
pushed onto `parts` and image urls onto `image_urls`, in encounter order. -/
def collectParts : List MessageContentPart → List String → List String →
    List String × List String
  | [], parts, image_urls => (parts, image_urls)
  | .text t :: rest, parts, image_urls =>
      collectParts rest (parts ++ [t]) image_urls
  | .imageUrl ⟨u⟩ :: rest, parts, image_urls =>
      collectParts rest parts (image_urls ++ [u])

/-- Flattening of one message's content in `generate_prompt`: the string
spliced into the prompt, together with the image urls pushed while
flattening (text parts are joined by a blank line, Rust `join("\n\n")`). -/
def contentOf : MessageContent → String × List String
  | .text t => (t, [])
  | .array list =>
      let pu := collectParts list [] []
      (String.intercalate "\n\n" pu.1, pu.2)
  | .toolResults _ => ("", [])

/-- The role-dependent wrapping of one flattened content, as in the `match
role` of `generate_prompt`. -/
def roleSegment (format : PromptFormat) (role : MessageRole)
    (content : String) : String :=
  match role with
  | .system => format.system_pre_message ++ content ++ format.system_post_message
  | .assistant => format.assistant_pre_message ++ content ++ format.assistant_post_message
  | .user => format.user_pre_message ++ content ++ format.user_post_message

/-- The message loop of `generate_prompt`: accumulates the prompt string and
the side list of image urls across all messages. -/
def promptLoop (format : PromptFormat) :
    List Message → String → List String → String × List String
  | [], prompt, image_urls => (prompt, image_urls)
  | message :: rest, prompt, image_urls =>
      let cu := contentOf message.content
      promptLoop format rest (prompt ++ roleSegment format message.role cu.1)
        (image_urls ++ cu.2)

/-- `generate_prompt(messages, format)` from src/client/prompt_format.rs.
The Rust error is `bail!("The model does not support images: {:?}",
image_urls)`; the embedding returns the carried url list as the error. -/
def generate_prompt (messages : List Message) (format : PromptFormat) :
    Except (List String) String :=
  let pu := promptLoop format messages format.begin_ []
  if !pu.2.isEmpty then Except.error pu.2
  else Except.ok (pu.1 ++ format.end_)

/-- `smart_prompt_format(model_name)` from src/client/prompt_format.rs. -/
def smart_prompt_format (model_name : String) : PromptFormat :=
  if strContains model_name "llama3" || strContains model_name "llama-3" then
    LLAMA3_PROMPT_FORMAT
  else if strContains model_name "llama2" || strContains model_name "llama-2"
      || strContains model_name "mistral" || strContains model_name "mixtral" then
    MISTRAL_PROMPT_FORMAT
  else if strContains model_name "phi3" || strContains model_name "phi-3" then
    PHI3_PROMPT_FORMAT
  else if strContains model_name "command-r" then
    COMMAND_R_PROMPT_FORMAT
  else if strContains model_name "qwen" then
    QWEN_PROMPT_FORMAT
  else if strContains model_name "claude" then
    ANTHROPIC_PROMPT_FORMAT
  else
    GENERIC_PROMPT_FORMAT

/-! ## JSON values (serde_json `Value`) and the Straico adapter -/

/-- A JSON value, as serde_json `Value`; numbers restricted to integers
(the adapter never inspects numeric fields). -/
inductive Json
  | null
  | bool (b : Bool)
  | num (n : Int)
  | str (s : String)
  | arr (items : List Json)
  | obj (fields : List (String × Json))

/-- serde_json immutable string indexing `value[key]`: field of an object,
`Null` when the key is absent or the value is no object. -/
def Json.getKey : Json → String → Json
  | .obj fields, k =>
      match fields.find? (fun f => f.1 == k) with
      | some f => f.2
      | none => .null
  | _, _ => .null

/-- serde_json immutable index `value[i]`: array element, `Null` when out of
bounds or the value is no array. -/
def Json.getIdx : Json → Nat → Json
  | .arr items, i => (items.get? i).getD .null
  | _, _ => .null

/-- serde_json `as_str()`: `Some` exactly on string values. -/
def Json.asStr : Json → Option String
  | .str s => some s
  | _ => none

/-- One hexadecimal digit, lower case, as serde_json uses in `\u00XX`. -/
def hexDigit (n : Nat) : String :=
  if n < 10 then String.singleton (Char.ofNat (48 + n))
  else String.singleton (Char.ofNat (87 + n))

/-- serde_json escaping of one character inside a JSON string literal. -/
def escapeJsonChar (c : Char) : String :=
  if c = Char.ofNat 34 then "\\\""
  else if c = Char.ofNat 92 then "\\\\"
  else if c = Char.ofNat 8 then "\\b"
  else if c = Char.ofNat 12 then "\\f"
  else if c = Char.ofNat 10 then "\\n"
  else if c = Char.ofNat 13 then "\\r"
  else if c = Char.ofNat 9 then "\\t"
  else if c.toNat < 32 then
    "\\u00" ++ hexDigit (c.toNat / 16) ++ hexDigit (c.toNat % 16)
  else String.singleton c

/-- A string rendered as a JSON string literal with quotes and escapes. -/
def quoteJson (s : String) : String :=
  "\"" ++ String.join (s.toList.map escapeJsonChar) ++ "\""

mutual

/-- serde_json `Value::to_string()` (the `Display` impl): compact JSON
serialization. Braces are written escaped (`\x7b`, `\x7d`). -/
def jsonToString : Json → String
  | .null => "null"
  | .bool true => "true"
  | .bool false => "false"
  | .num n => toString n
  | .str s => quoteJson s
  | .arr items => "[" ++ jsonArrToString items ++ "]"
  | .obj fields => "\x7b" ++ jsonObjToString fields ++ "\x7d"

/-- Comma-separated rendering of a JSON array's items. -/
def jsonArrToString : List Json → String
  | [] => ""
  | [x] => jsonToString x
  | x :: y :: rest => jsonToString x ++ "," ++ jsonArrToString (y :: rest)

/-- Comma-separated rendering of a JSON object's fields. -/
def jsonObjToString : List (String × Json) → String
  | [] => ""
  | [f] => quoteJson f.1 ++ ":" ++ jsonToString f.2
  | f :: g :: rest => quoteJson f.1 ++ ":" ++ jsonToString f.2 ++ "," ++ jsonObjToString (g :: rest)

end

/-- Modelled from the spec: the target model descriptor (`Model`, declared
outside src/); only its declared name is used by this adapter (spec 4.4). -/
structure Model where
  name : String
deriving DecidableEq

/-- Modelled from the spec: a tool call entry of the normalized output
(`ToolCall`, declared outside src/); opaque to this adapter, which always
returns an empty list of them. -/
structure ToolCall where
  payload : Unit
deriving DecidableEq

/-- `ChatCompletionsOutput`: the normalized result shape (spec section 3). -/
structure ChatCompletionsOutput where
  text : String
  tool_calls : List ToolCall
  id : Option String
  input_tokens : Option Nat
  output_tokens : Option Nat
deriving DecidableEq

/-- Modelled from the spec: chat-completions request data
(`ChatCompletionsData`, declared outside src/). The Straico body builder
destructures it and uses only `messages`; the remaining fields are carried
but ignored, numeric knobs modelled as integers. -/
structure ChatCompletionsData where
  messages : List Message
  temperature : Option Int
  top_p : Option Int
  functions : Option (List Unit)
  stream : Bool

/-- Modelled from the spec: the configuration/auth source supplies an
optional credential per provider instance (spec section 6), and the client
carries its target model. `get_api_key().ok()` in the code yields exactly
this optional credential. -/
structure StraicoClient where
  api_key : Option String
  model : Model

/-- Modelled from the spec: the optional credential lookup; absence is an
explicit missing result (spec section 6). -/
def StraicoClient.get_api_key (self_ : StraicoClient) : Option String :=
  self_.api_key

/-- Modelled from the spec: `RequestData`, the built-but-unsent request
descriptor — target endpoint, JSON body, optional bearer auth (spec
sections 3 and 6). -/
structure RequestData where
  url : String
  body : Json
  bearer_token : Option String

/-- Modelled from the spec: `RequestData::new(url, body)` builds a
descriptor with no auth attached. -/
def RequestData.new (url : String) (body : Json) : RequestData :=
  { url := url, body := body, bearer_token := none }

/-- Modelled from the spec: `bearer_auth` attaches a bearer credential. -/
def RequestData.bearer_auth (r : RequestData) (token : String) : RequestData :=
  { r with bearer_token := some token }

def API_BASE : String := "https://api.straico.com/v1"

/-- `straico_build_chat_completions_body` from src/client/straico.rs. -/
def straico_build_chat_completions_body (data : ChatCompletionsData)
    (model : Model) : Except (List String) Json :=
  match generate_prompt data.messages (smart_prompt_format model.name) with
  | .error e => .error e
  | .ok prompt =>
      .ok (Json.obj [("message", Json.str prompt),
                     ("models", Json.arr [Json.str model.name])])

/-- `prepare_chat_completions` from src/client/straico.rs. -/
def prepare_chat_completions (self_ : StraicoClient)
    (data : ChatCompletionsData) : Except (List String) RequestData :=
  let api_key := self_.get_api_key
  let url := API_BASE ++ "/prompt/completion"
  match straico_build_chat_completions_body data self_.model with
  | .error e => .error e
  | .ok body =>
      let request_data := RequestData.new url body
      let request_data :=
        match api_key with
        | some k => request_data.bearer_auth k
        | none => request_data
      .ok request_data

/-- Modelled from the spec: the opaque streaming event sink handle
(`SseHandler`, declared outside src/; spec section 6). -/
structure SseHandler where
  payload : Unit

/-- Modelled from the spec: the opaque unsent transport request
(`RequestBuilder` of the transport collaborator; spec section 6). -/
structure RequestBuilder where
  payload : Unit

/-- `straico_chat_completions_streaming` from src/client/straico.rs:
unconditionally `bail!("Straico does not support streaming")`. -/
def straico_chat_completions_streaming (_ : RequestBuilder) (_ : SseHandler)
    (_ : Model) : Except String Unit :=
  .error "Straico does not support streaming"

/-- `straico_extract_chat_completions` from src/client/straico.rs. -/
def straico_extract_chat_completions (data : Json) (model : Model) :
    Except String ChatCompletionsOutput :=
  let model_data :=
    (((data.getKey "data").getKey "completions").getKey model.name).getKey "completion"
  match ((((model_data.getKey "choices").getIdx 0).getKey "message").getKey "content").asStr with
  | none => .error ("Invalid response data: " ++ jsonToString data)
  | some text =>
      let id := model_data.getKey "id"
      .ok { text := text
          , tool_calls := []
          , id := some (jsonToString id)
          , input_tokens := none
          , output_tokens := none }

/-! ## Spec-side descriptions used to state the claims -/

/-- The Text parts' strings of a part list, in original order. -/
def textsOf : List MessageContentPart → List String
  | [] => []
  | .text t :: rest => t :: textsOf rest
  | .imageUrl _ :: rest => textsOf rest

/-- The image URLs of a part list, in original order. -/
def partImageUrls : List MessageContentPart → List String
  | [] => []
  | .text _ :: rest => partImageUrls rest
  | .imageUrl u :: rest => u.url :: partImageUrls rest

/-- The image URLs contributed by one message's content. -/
def messageImageUrls : MessageContent → List String
  | .array list => partImageUrls list
  | _ => []

/-- All image URLs of a conversation, in original encounter order. -/
def allImageUrls : List Message → List String
  | [] => []
  | m :: rest => messageImageUrls m.content ++ allImageUrls rest

/-- A content contains at least one image-reference part. -/
def contentHasImage (c : MessageContent) : Prop :=
  ∃ list u, c = MessageContent.array list ∧ MessageContentPart.imageUrl u ∈ list

/-- The pre-delimiter a format assigns to a role. -/
def rolePre (format : PromptFormat) : MessageRole → String
  | .system => format.system_pre_message
  | .user => format.user_pre_message
  | .assistant => format.assistant_pre_message

/-- The post-delimiter a format assigns to a role. -/
def rolePost (format : PromptFormat) : MessageRole → String
  | .system => format.system_post_message
  | .user => format.user_post_message
  | .assistant => format.assistant_post_message

/-- The concatenated wrapped turns of a message list (the body between
`begin` and `end` that the renderer produces). -/
def segsOf (format : PromptFormat) : List Message → String
  | [] => ""
  | m :: rest => roleSegment format m.role (contentOf m.content).1 ++ segsOf format rest

/-- The spec's description of rendering plain-text turns: per turn in
order, pre-delimiter, then the text, then the post-delimiter. -/
def turnsRendering (format : PromptFormat) : List (MessageRole × String) → String
  | [] => ""
  | rt :: rest => rolePre format rt.1 ++ rt.2 ++ rolePost format rt.1 ++ turnsRendering format rest

/-- A plain-text message from a (role, text) pair. -/
def mkTextMessage (rt : MessageRole × String) : Message :=
  { role := rt.1, content := MessageContent.text rt.2 }

/-! ## Structural lemmas about the renderer -/

lemma collectParts_eq (list : List MessageContentPart)
    (parts image_urls : List String) :
    collectParts list parts image_urls =
      (parts ++ textsOf list, image_urls ++ partImageUrls list) := by
  induction list generalizing parts image_urls with
  | nil => simp [collectParts, textsOf, partImageUrls]
  | cons p rest ih =>
    cases p with
    | text t =>
      simp [collectParts, textsOf, partImageUrls, ih]
    | imageUrl u =>
      cases u
      simp [collectParts, textsOf, partImageUrls, ih]

lemma contentOf_fst_array (list : List MessageContentPart) :
    (contentOf (MessageContent.array list)).1 =
      String.intercalate "\n\n" (textsOf list) := by
  simp [contentOf, collectParts_eq]

lemma contentOf_snd (c : MessageContent) :
    (contentOf c).2 = messageImageUrls c := by
  cases c with
  | text t => simp [contentOf, messageImageUrls]
  | array list => simp [contentOf, messageImageUrls, collectParts_eq]
  | toolResults p => simp [contentOf, messageImageUrls]

lemma promptLoop_eq (format : PromptFormat) (messages : List Message)
    (prompt : String) (image_urls : List String) :
    promptLoop format messages prompt image_urls =
      (prompt ++ segsOf format messages, image_urls ++ allImageUrls messages) := by
  induction messages generalizing prompt image_urls with
  | nil => simp [promptLoop, segsOf, allImageUrls]
  | cons m rest ih =>
    simp [promptLoop, segsOf, allImageUrls, ih, contentOf_snd,
      String.append_assoc, List.append_assoc]

/-- The renderer, described through the spec-side pieces: error with all
image urls when any exist, else `begin ++ turns ++ end`. -/
lemma generate_prompt_eq (messages : List Message) (format : PromptFormat) :
    generate_prompt messages format =
      if allImageUrls messages = [] then
        Except.ok (format.begin_ ++ segsOf format messages ++ format.end_)
      else Except.error (allImageUrls messages) := by
  unfold generate_prompt
  rw [promptLoop_eq]
  cases h : allImageUrls messages with
  | nil => simp [h, String.append_assoc]
  | cons u rest => simp [h]

lemma roleSegment_eq (format : PromptFormat) (role : MessageRole) (c : String) :
    roleSegment format role c = rolePre format role ++ c ++ rolePost format role := by
  cases role <;> rfl

lemma segsOf_map_text (format : PromptFormat) (turns : List (MessageRole × String)) :
    segsOf format (turns.map mkTextMessage) = turnsRendering format turns := by
  induction turns with
  | nil => rfl
  | cons rt rest ih =>
    simp [segsOf, turnsRendering, mkTextMessage, roleSegment_eq, contentOf, ih,
      String.append_assoc]

lemma allImageUrls_map_text (turns : List (MessageRole × String)) :
    allImageUrls (turns.map mkTextMessage) = [] := by
  induction turns with
  | nil => rfl
  | cons rt rest ih => simp [allImageUrls, mkTextMessage, messageImageUrls, ih]

lemma partImageUrls_eq_nil_iff (list : List MessageContentPart) :
    partImageUrls list = [] ↔ ∀ u, MessageContentPart.imageUrl u ∉ list := by
  induction list with
  | nil => simp [partImageUrls]
  | cons p rest ih =>
    cases p with
    | text t => simp [partImageUrls, ih]
    | imageUrl u =>
      simp only [partImageUrls]
      constructor
      · intro h
        cases h
      · intro h
        exact absurd (List.mem_cons_self _ _) (h u)

lemma messageImageUrls_eq_nil_iff (c : MessageContent) :
    messageImageUrls c = [] ↔ ¬ contentHasImage c := by
  cases c with
  | text t => simp [messageImageUrls, contentHasImage]
  | toolResults p => simp [messageImageUrls, contentHasImage]
  | array list =>
    simp only [messageImageUrls, contentHasImage, partImageUrls_eq_nil_iff]
    constructor
    · rintro h ⟨l, u, hl, hu⟩
      cases hl
      exact h u hu
    · intro h u hu
      exact h ⟨list, u, rfl, hu⟩

lemma allImageUrls_eq_nil_iff (messages : List Message) :
    allImageUrls messages = [] ↔ ¬ ∃ m ∈ messages, contentHasImage m.content := by
  induction messages with
  | nil => simp [allImageUrls]
  | cons m rest ih =>
    simp only [allImageUrls, List.append_eq_nil, ih, messageImageUrls_eq_nil_iff]
    constructor
    · rintro ⟨h1, h2⟩ ⟨x, hx, hc⟩
      rcases List.mem_cons.mp hx with h | h
      · exact h1 (h ▸ hc)
      · exact h2 ⟨x, h, hc⟩
    · intro h
      exact ⟨fun hc => h ⟨m, List.mem_cons_self m rest, hc⟩,
             fun ⟨x, hx, hc⟩ => h ⟨x, List.mem_cons_of_mem m hx, hc⟩⟩

/-! ## Claim theorems: prompt renderer and template registry -/

/-- Claim C1: for conversations of plain-text messages, rendering with the
generic format succeeds and equals the begin delimiter, then per message in
order the role's pre-delimiter, the text, and the role's post-delimiter,
then the end delimiter; scenario A yields exactly the expected string. -/
theorem generic_render_text_conversations :
    (∀ turns : List (MessageRole × String),
      generate_prompt (turns.map mkTextMessage) GENERIC_PROMPT_FORMAT =
        Except.ok (GENERIC_PROMPT_FORMAT.begin_ ++
          turnsRendering GENERIC_PROMPT_FORMAT turns ++
          GENERIC_PROMPT_FORMAT.end_)) ∧
    generate_prompt
      [ { role := MessageRole.user
        , content := MessageContent.text "Hello, how are you?" }
      , { role := MessageRole.assistant
        , content := MessageContent.text "I'm doing well, thank you! How can I assist you today?" }
      , { role := MessageRole.user
        , content := MessageContent.text "Can you explain quantum computing?" } ]
      GENERIC_PROMPT_FORMAT =
      Except.ok "### Instruction:\nHello, how are you?\n### Response:\nI'm doing well, thank you! How can I assist you today?\n### Instruction:\nCan you explain quantum computing?\n### Response:\n" := by
  constructor
  · intro turns
    rw [generate_prompt_eq, allImageUrls_map_text, segsOf_map_text]
    simp
  · rfl

/-- Claim C2: a conversation with at least one image-reference part renders
to an error carrying every image URL in encounter order (collected over the
full pass), against any format; a conversation without image references
renders successfully. -/
theorem render_rejects_images (messages : List Message) (format : PromptFormat) :
    ((∃ m ∈ messages, contentHasImage m.content) →
      generate_prompt messages format = Except.error (allImageUrls messages)) ∧
    ((¬ ∃ m ∈ messages, contentHasImage m.content) →
      generate_prompt messages format =
        Except.ok (format.begin_ ++ segsOf format messages ++ format.end_)) := by
  constructor
  · intro h
    have hne : allImageUrls messages ≠ [] := by
      intro hnil
      exact (allImageUrls_eq_nil_iff messages).mp hnil h
    rw [generate_prompt_eq]
    simp [hne]
  · intro h
    have hnil : allImageUrls messages = [] :=
      (allImageUrls_eq_nil_iff messages).mpr h
    rw [generate_prompt_eq]
    simp [hnil]

/-- Witness for C2: a one-image conversation errors with that URL; a
text-only conversation succeeds. -/
theorem render_rejects_images_witness :
    generate_prompt
      [ { role := MessageRole.user
        , content := MessageContent.array
            [ MessageContentPart.imageUrl ⟨"https://example.com/cat.png"⟩
            , MessageContentPart.text "hi" ] } ]
      GENERIC_PROMPT_FORMAT = Except.error ["https://example.com/cat.png"] ∧
    generate_prompt
      [ { role := MessageRole.user, content := MessageContent.text "hi" } ]
      GENERIC_PROMPT_FORMAT =
      Except.ok "### Instruction:\nhi\n### Response:\n" := by
  constructor
  · exact (render_rejects_images _ GENERIC_PROMPT_FORMAT).1
      ⟨_, List.mem_cons_self _ _,
        ⟨_, ⟨"https://example.com/cat.png"⟩, rfl, List.mem_cons_self _ _⟩⟩
  · exact (render_rejects_images _ GENERIC_PROMPT_FORMAT).2
      (by
        rintro ⟨m, hm, l, u, hl, hu⟩
        rcases List.mem_singleton.mp hm with rfl
        simp at hl)

/-- The closed catalog of formats that `smart_prompt_format` selects from. -/
def FORMAT_CATALOG : List PromptFormat :=
  [ LLAMA3_PROMPT_FORMAT, MISTRAL_PROMPT_FORMAT, PHI3_PROMPT_FORMAT
  , COMMAND_R_PROMPT_FORMAT, QWEN_PROMPT_FORMAT, ANTHROPIC_PROMPT_FORMAT
  , GENERIC_PROMPT_FORMAT ]

/-- Claim C3: `smart_prompt_format` always returns one format of the closed
catalog, chosen by the seven substring rules top-to-bottom with first
match winning; a name containing both "llama-3" and "claude" maps to the
Llama-3 format, and a name matching no rule maps to the generic format. -/
theorem smart_prompt_format_rules (name : String) :
    smart_prompt_format name ∈ FORMAT_CATALOG ∧
    ((strContains name "llama3" || strContains name "llama-3") = true →
      smart_prompt_format name = LLAMA3_PROMPT_FORMAT) ∧
    ((strContains name "llama3" || strContains name "llama-3") = false →
      (strContains name "llama2" || strContains name "llama-2" ||
        strContains name "mistral" || strContains name "mixtral") = true →
      smart_prompt_format name = MISTRAL_PROMPT_FORMAT) ∧
    ((strContains name "llama3" || strContains name "llama-3") = false →
      (strContains name "llama2" || strContains name "llama-2" ||
        strContains name "mistral" || strContains name "mixtral") = false →
      (strContains name "phi3" || strContains name "phi-3") = true →
      smart_prompt_format name = PHI3_PROMPT_FORMAT) ∧
    ((strContains name "llama3" || strContains name "llama-3") = false →
      (strContains name "llama2" || strContains name "llama-2" ||
        strContains name "mistral" || strContains name "mixtral") = false →
      (strContains name "phi3" || strContains name "phi-3") = false →
      strContains name "command-r" = true →
      smart_prompt_format name = COMMAND_R_PROMPT_FORMAT) ∧
    ((strContains name "llama3" || strContains name "llama-3") = false →
      (strContains name "llama2" || strContains name "llama-2" ||
        strContains name "mistral" || strContains name "mixtral") = false →
      (strContains name "phi3" || strContains name "phi-3") = false →
      strContains name "command-r" = false →
      strContains name "qwen" = true →
      smart_prompt_format name = QWEN_PROMPT_FORMAT) ∧
    ((strContains name "llama3" || strContains name "llama-3") = false →
      (strContains name "llama2" || strContains name "llama-2" ||
        strContains name "mistral" || strContains name "mixtral") = false →
      (strContains name "phi3" || strContains name "phi-3") = false →
      strContains name "command-r" = false →
      strContains name "qwen" = false →
      strContains name "claude" = true →
      smart_prompt_format name = ANTHROPIC_PROMPT_FORMAT) ∧
    ((strContains name "llama3" || strContains name "llama-3") = false →
      (strContains name "llama2" || strContains name "llama-2" ||
        strContains name "mistral" || strContains name "mixtral") = false →
      (strContains name "phi3" || strContains name "phi-3") = false →
      strContains name "command-r" = false →
      strContains name "qwen" = false →
      strContains name "claude" = false →
      smart_prompt_format name = GENERIC_PROMPT_FORMAT) ∧
    smart_prompt_format "llama-3-claude-tuned" = LLAMA3_PROMPT_FORMAT := by
  refine ⟨?_, ?_, ?_, ?_, ?_, ?_, ?_, ?_, ?_⟩
  · unfold smart_prompt_format
    repeat' split
    all_goals simp [FORMAT_CATALOG]
  · intro h1
    simp [smart_prompt_format, h1]
  · intro h1 h2
    simp [smart_prompt_format, h1, h2]
  · intro h1 h2 h3
    simp [smart_prompt_format, h1, h2, h3]
  · intro h1 h2 h3 h4
    simp [smart_prompt_format, h1, h2, h3, h4]
  · intro h1 h2 h3 h4 h5
    simp [smart_prompt_format, h1, h2, h3, h4, h5]
  · intro h1 h2 h3 h4 h5 h6
    simp [smart_prompt_format, h1, h2, h3, h4, h5, h6]
  · intro h1 h2 h3 h4 h5 h6
    simp [smart_prompt_format, h1, h2, h3, h4, h5, h6]
  · rfl

/-- Witness for C3: a mixtral name takes the second rule; an unmatched name
falls through to the generic format. -/
theorem smart_prompt_format_rules_witness :
    smart_prompt_format "mixtral-8x7b" = MISTRAL_PROMPT_FORMAT ∧
    smart_prompt_format "gpt-4" = GENERIC_PROMPT_FORMAT := by
  constructor
  · exact (smart_prompt_format_rules "mixtral-8x7b").2.2.1 (by decide) (by decide)
  · exact (smart_prompt_format_rules "gpt-4").2.2.2.2.2.2.2.1
      (by decide) (by decide) (by decide) (by decide) (by decide) (by decide)

/-- Claim C4 (code evaluation): on the scenario-B conversation the Anthropic
format yields a string with a single leading newline and no trailing space
after the final "Assistant:", which differs from the string the spec (and
the file's own test) expects. -/
theorem anthropic_scenario_eval :
    generate_prompt
      [ { role := MessageRole.user
        , content := MessageContent.text "What's the capital of France?" }
      , { role := MessageRole.assistant
        , content := MessageContent.text "The capital of France is Paris." }
      , { role := MessageRole.user
        , content := MessageContent.text "And what's the capital of Italy?" } ]
      ANTHROPIC_PROMPT_FORMAT =
      Except.ok "\nHuman: What's the capital of France?\n\nAssistant: The capital of France is Paris.\n\nHuman: And what's the capital of Italy?\n\nAssistant:" ∧
    ("\nHuman: What's the capital of France?\n\nAssistant: The capital of France is Paris.\n\nHuman: And what's the capital of Italy?\n\nAssistant:" : String) ≠
      "\n\nHuman: What's the capital of France?\n\nAssistant: The capital of France is Paris.\n\nHuman: And what's the capital of Italy?\n\nAssistant: " := by
  constructor
  · rfl
  · decide

/-- Claim C5: flattening a part-list content yields exactly the Text parts'
strings in original order joined by a blank line (two newlines), image
parts contributing nothing to the string; flattening tool-results content
yields the empty string (and no image urls). -/
theorem content_flattening (list : List MessageContentPart) (payload : Nat) :
    (contentOf (MessageContent.array list)).1 =
      String.intercalate "\n\n" (textsOf list) ∧
    contentOf (MessageContent.toolResults payload) = ("", []) :=
  ⟨contentOf_fst_array list, rfl⟩

/-- Claim C9: the renderer is deterministic — identical message sequences
and identical formats give identical results. -/
theorem generate_prompt_deterministic (messages1 messages2 : List Message)
    (format1 format2 : PromptFormat) (hm : messages1 = messages2)
    (hf : format1 = format2) :
    generate_prompt messages1 format1 = generate_prompt messages2 format2 := by
  rw [hm, hf]

/-- Witness for C9: two identical calls on a concrete conversation agree. -/
theorem generate_prompt_deterministic_witness :
    generate_prompt
      [ { role := MessageRole.user, content := MessageContent.text "hi" } ]
      GENERIC_PROMPT_FORMAT =
    generate_prompt
      [ { role := MessageRole.user, content := MessageContent.text "hi" } ]
      GENERIC_PROMPT_FORMAT :=
  generate_prompt_deterministic _ _ _ _ rfl rfl

/-! ## Claim theorems: Straico adapter -/

/-- The JSON path to the completion object for a model:
`data["data"]["completions"][model.name]["completion"]`. -/
def modelDataOf (data : Json) (model : Model) : Json :=
  (((data.getKey "data").getKey "completions").getKey model.name).getKey "completion"

/-- The JSON path to the completion text:
`model_data["choices"][0]["message"]["content"]`. -/
def contentFieldOf (data : Json) (model : Model) : Json :=
  ((((modelDataOf data model).getKey "choices").getIdx 0).getKey "message").getKey "content"

/-- The extractor, described through the named JSON paths. -/
lemma straico_extract_eq (data : Json) (model : Model) :
    straico_extract_chat_completions data model =
      match (contentFieldOf data model).asStr with
      | none => Except.error ("Invalid response data: " ++ jsonToString data)
      | some text =>
          Except.ok { text := text
                    , tool_calls := []
                    , id := some (jsonToString ((modelDataOf data model).getKey "id"))
                    , input_tokens := none
                    , output_tokens := none } := rfl

/-- Claim C6: the streaming chat-completion slot of the Straico adapter
fails on every input with an error naming the provider and the missing
streaming operation; it never succeeds. -/
theorem straico_streaming_unsupported (builder : RequestBuilder)
    (handler : SseHandler) (model : Model) :
    straico_chat_completions_streaming builder handler model =
      Except.error "Straico does not support streaming" ∧
    strContains "Straico does not support streaming" "Straico" = true ∧
    strContains "Straico does not support streaming" "streaming" = true :=
  ⟨rfl, by decide, by decide⟩

/-- Claim C7: when the completion text field at the known JSON path is a
string, extraction succeeds with exactly that text; when it is absent or
not a string, extraction fails with the malformed-response error. -/
theorem straico_extract_content (data : Json) (model : Model) :
    (∀ s, (contentFieldOf data model).asStr = some s →
      straico_extract_chat_completions data model =
        Except.ok { text := s
                  , tool_calls := []
                  , id := some (jsonToString ((modelDataOf data model).getKey "id"))
                  , input_tokens := none
                  , output_tokens := none }) ∧
    ((contentFieldOf data model).asStr = none →
      straico_extract_chat_completions data model =
        Except.error ("Invalid response data: " ++ jsonToString data)) := by
  constructor
  · intro s hs
    rw [straico_extract_eq, hs]
  · intro hs
    rw [straico_extract_eq, hs]

/-- A sample successful Straico response for model "m1", id present. -/
def SAMPLE_OK : Json :=
  Json.obj [("data", Json.obj [("completions", Json.obj [("m1",
    Json.obj [("completion", Json.obj
      [ ("choices", Json.arr [Json.obj [("message",
          Json.obj [("content", Json.str "Hello!")])]])
      , ("id", Json.str "abc") ])])])])]

/-- A sample successful Straico response for model "m1" with no id field. -/
def SAMPLE_NOID : Json :=
  Json.obj [("data", Json.obj [("completions", Json.obj [("m1",
    Json.obj [("completion", Json.obj
      [ ("choices", Json.arr [Json.obj [("message",
          Json.obj [("content", Json.str "Hello!")])]]) ])])])])]

/-- Witness for C7: a well-shaped response extracts its text; a null
response fails with the malformed-response error. -/
theorem straico_extract_content_witness :
    straico_extract_chat_completions SAMPLE_OK ⟨"m1"⟩ =
      Except.ok { text := "Hello!"
                , tool_calls := []
                , id := some "\"abc\""
                , input_tokens := none
                , output_tokens := none } ∧
    straico_extract_chat_completions Json.null ⟨"m1"⟩ =
      Except.error "Invalid response data: null" := by
  constructor
  · exact (straico_extract_content SAMPLE_OK ⟨"m1"⟩).1 "Hello!" rfl
  · exact (straico_extract_content Json.null ⟨"m1"⟩).2 rfl

/-- `prepare_chat_completions`, described through the renderer's result. -/
lemma prepare_chat_completions_eq (self_ : StraicoClient)
    (data : ChatCompletionsData) :
    prepare_chat_completions self_ data =
      match generate_prompt data.messages (smart_prompt_format self_.model.name) with
      | .error e => Except.error e
      | .ok p =>
          Except.ok { url := API_BASE ++ "/prompt/completion"
                    , body := Json.obj [("message", Json.str p),
                        ("models", Json.arr [Json.str self_.model.name])]
                    , bearer_token := self_.api_key } := by
  unfold prepare_chat_completions straico_build_chat_completions_body
    StraicoClient.get_api_key
  cases generate_prompt data.messages (smart_prompt_format self_.model.name) with
  | error e => rfl
  | ok p =>
    cases h : self_.api_key with
    | none => rfl
    | some k => rfl

/-- Claim C8: prepare succeeds whenever the prompt renders (the credential
being optional, attached as bearer auth exactly when present), the body
being `message`/`models` as built from the format selected on the model's
name; a render failure is propagated. -/
theorem prepare_chat_completions_spec (self_ : StraicoClient)
    (data : ChatCompletionsData) :
    (∀ p, generate_prompt data.messages (smart_prompt_format self_.model.name) =
        Except.ok p →
      prepare_chat_completions self_ data =
        Except.ok { url := "https://api.straico.com/v1/prompt/completion"
                  , body := Json.obj [("message", Json.str p),
                      ("models", Json.arr [Json.str self_.model.name])]
                  , bearer_token := self_.api_key }) ∧
    (∀ e, generate_prompt data.messages (smart_prompt_format self_.model.name) =
        Except.error e →
      prepare_chat_completions self_ data = Except.error e) := by
  constructor
  · intro p hp
    rw [prepare_chat_completions_eq, hp]
    rfl
  · intro e he
    rw [prepare_chat_completions_eq, he]

/-- Witness for C8: a keyless client with an unmatched model name prepares
the generic-rendered body with no bearer token attached. -/
theorem prepare_chat_completions_spec_witness :
    prepare_chat_completions ⟨none, ⟨"m1"⟩⟩
      ⟨[{ role := MessageRole.user, content := MessageContent.text "hi" }],
        none, none, none, false⟩ =
      Except.ok { url := "https://api.straico.com/v1/prompt/completion"
                , body := Json.obj
                    [ ("message", Json.str "### Instruction:\nhi\n### Response:\n")
                    , ("models", Json.arr [Json.str "m1"]) ]
                , bearer_token := none } := by
  exact (prepare_chat_completions_spec ⟨none, ⟨"m1"⟩⟩ _).1
    "### Instruction:\nhi\n### Response:\n" rfl

/-- Claim C10: every successful extraction has empty tool calls, no token
counts, and an id equal to the stringified JSON at the completion's id
path; in particular a completion object with no id field yields the id
`"null"`. -/
theorem straico_extract_output_shape (data : Json) (model : Model)
    (o : ChatCompletionsOutput)
    (h : straico_extract_chat_completions data model = Except.ok o) :
    o.tool_calls = [] ∧ o.input_tokens = none ∧ o.output_tokens = none ∧
    o.id = some (jsonToString ((modelDataOf data model).getKey "id")) ∧
    (∀ fields, modelDataOf data model = Json.obj fields →
      fields.find? (fun f => f.1 == "id") = none → o.id = some "null") := by
  rw [straico_extract_eq] at h
  cases hc : (contentFieldOf data model).asStr with
  | none =>
    rw [hc] at h
    cases h
  | some s =>
    rw [hc] at h
    cases h
    refine ⟨rfl, rfl, rfl, rfl, ?_⟩
    intro fields hf hnone
    rw [hf]
    simp [Json.getKey, hnone, jsonToString]

/-- Witness for C10: the id-less sample yields the stringified null id and
the constant output shape. -/
theorem straico_extract_output_shape_witness :
    ({ text := "Hello!", tool_calls := [], id := some "null"
     , input_tokens := none, output_tokens := none } : ChatCompletionsOutput).tool_calls = [] ∧
    ({ text := "Hello!", tool_calls := [], id := some "null"
     , input_tokens := none, output_tokens := none } : ChatCompletionsOutput).id = some "null" := by
  have h := straico_extract_output_shape SAMPLE_NOID ⟨"m1"⟩
    { text := "Hello!", tool_calls := [], id := some "null"
    , input_tokens := none, output_tokens := none } rfl
  exact ⟨h.1, h.2.2.2.1⟩

end Aichat
